import Mathlib

/-!
Shallow embedding of the `unitest-tools-group` repository (files `stand.py`,
`engine.py`, `web_handlers.py`, `main.py`): a Tornado/asyncio service that
manages a fleet of Docker test-environment containers ("stands"), each with an
in-container `test-tools` HTTP agent.

Conventions of the embedding:
* Python `None` / JSON values that may be `None`, an int or a string are
  modelled by the inductive `PyVal`; Python truthiness of an optional boolean
  is `pyTruthy`.
* `async` methods that can raise are modelled as functions returning `Except`;
  external collaborators (the Docker daemon, the in-container agent) are passed
  in as explicit arguments (inspect results, per-attempt fetch outcomes,
  per-action outcomes).
* Sequences of externally visible side effects (lock operations, timer
  arm/cancel, Docker calls, agent HTTP actions) are modelled as explicit
  effect-trace lists where a claim is about ordering of effects.
-/

namespace Unitest

/-- A dynamic Python value as it appears in the stand's refreshable fields:
`None`, an integer (e.g. a tomcat return code), or a string (e.g. the
sentinel `'-'`, a database address, a task name). -/
inductive PyVal : Type
  | none
  | int (n : Int)
  | str (s : String)
deriving DecidableEq, Repr

/-- Python truthiness of an `Optional[bool]` field (`None` is falsy). -/
def pyTruthy : Option Bool → Bool
  | Option.none => false
  | Option.some b => b

/-- Exceptions raised by `Stand._test_tool_action` (`stand.py`):
a re-raised Tornado `HTTPError` whose status is not the placeholder code 599,
the `RuntimeError('Container %s has stopped unexpectedly')`, or the
`TimeoutError('Container %s test tools is not available')`. -/
inductive TtError : Type
  | httpError (code : Nat)
  | containerStopped (name : String)
  | agentUnavailable (name : String)
deriving DecidableEq, Repr

/-- The state of one `Stand` object (`stand.py`, `Stand.__init__`), with the
fields the embedded operations read or write.  `stop_task` models whether
`self.stop_task` holds a task object (is not `None`); `queue` models the bound
destination queue by a numeric identity. -/
structure StandState : Type where
  name : String
  test_tools_addr : String
  test_tools_port : Option String
  uni_port : Option String
  queue : Option Nat
  stop_task : Bool
  stop_timeout : Nat
  db_addr : PyVal
  running : Option Bool
  tomcat_returncode : PyVal
  last_task : PyVal
  last_error : PyVal
  active_task : PyVal
  uni_version : PyVal
deriving DecidableEq, Repr

/-- `Stand.__init__(name, test_tools_addr, stop_timeout)`: every dynamic field
starts as Python `None`. -/
def Stand.init (name test_tools_addr : String) (stop_timeout : Nat) : StandState :=
  { name := name
    test_tools_addr := test_tools_addr
    test_tools_port := Option.none
    uni_port := Option.none
    queue := Option.none
    stop_task := false
    stop_timeout := stop_timeout
    db_addr := PyVal.none
    running := Option.none
    tomcat_returncode := PyVal.none
    last_task := PyVal.none
    last_error := PyVal.none
    active_task := PyVal.none
    uni_version := PyVal.none }

/-- The part of `docker.inspect_container` that `Stand.refresh` reads:
`State.Running`, and the two host-port bindings `8082/tcp` / `8080/tcp`
(`Option.none` when a binding is missing, which raises
`KeyError`/`IndexError`/`TypeError` in the source and is caught there). -/
structure InspectResult : Type where
  running : Bool
  ports : Option (String × String)
deriving DecidableEq, Repr

/-- The JSON body returned by the agent's `engine_status` action. -/
structure EngineStatus : Type where
  db_addr : PyVal
  tomcat_returncode : PyVal
  last_task : PyVal
  last_error : PyVal
  active_task : PyVal
  uni_version : PyVal
deriving DecidableEq, Repr

/-- `Stand.refresh` (`stand.py` lines 42-65).  `ins` is the container inspect
result; `statusResult` is the outcome of the `engine_status` agent call (only
consulted on the running-with-bound-ports path).  On an exception the error
value carries the stand state as already mutated before the raise (in Python
the mutations to `running` and the ports survive the exception). -/
def StandState.refresh (s : StandState) (ins : InspectResult)
    (statusResult : Except TtError EngineStatus) :
    Except (TtError × StandState) StandState :=
  let s1 : StandState := { s with running := Option.some ins.running }
  if ins.running then
    match ins.ports with
    | Option.none => Except.ok s1
    | Option.some (tp, up) =>
      let s2 : StandState := { s1 with test_tools_port := Option.some tp
                                       uni_port := Option.some up }
      match statusResult with
      | Except.error e => Except.error (e, s2)
      | Except.ok es =>
        Except.ok { s2 with db_addr := es.db_addr
                            tomcat_returncode := es.tomcat_returncode
                            last_task := es.last_task
                            last_error := es.last_error
                            active_task := es.active_task
                            uni_version := es.uni_version }
  else
    Except.ok { s1 with tomcat_returncode := PyVal.str "-"
                        last_task := PyVal.str "-"
                        last_error := PyVal.str "-"
                        active_task := PyVal.str "-"
                        uni_version := PyVal.str "-" }

/-! ### Agent polling loop (`Stand._test_tool_action`, `stand.py` lines 67-93) -/

/-- The outcome of one `AsyncHTTPClient.fetch` attempt inside
`_test_tool_action`: a response whose Python truthiness is `truthy`
(the source re-loops on a falsy ("empty") response), a `ConnectionError`,
or a Tornado `HTTPError` with the given status code. -/
inductive FetchResult : Type
  | ok (truthy : Bool)
  | connError
  | httpError (code : Nat)
deriving DecidableEq, Repr

/-- What one loop iteration of `_test_tool_action` does with a fetch outcome:
return the response, silently retry (falsy response, `ConnectionError`, or
`HTTPError` with the placeholder code 599), or re-raise the `HTTPError`. -/
inductive AttemptStep : Type
  | returned
  | retry
  | raised (code : Nat)
deriving DecidableEq, Repr

/-- Classification of a single fetch outcome, following the
`try`/`except` of `_test_tool_action`. -/
def attemptStep : FetchResult → AttemptStep
  | FetchResult.ok true => AttemptStep.returned
  | FetchResult.ok false => AttemptStep.retry
  | FetchResult.connError => AttemptStep.retry
  | FetchResult.httpError c =>
    if c = 599 then AttemptStep.retry else AttemptStep.raised c

/-- The `while try_count < 15` loop of `_test_tool_action`, with the loop
counter encoded by its remaining fuel (`fuel = 15 - try_count`).
`attempts i` is the outcome of the fetch performed when `try_count = i`;
`finalRunning` is `State.Running` from the authoritative inspect performed
after the loop exhausts.  Returns the call result together with the list of
`asyncio.sleep` durations performed (the source sleeps `1` after every
non-returning attempt). -/
def ttLoop (name : String) (attempts : Nat → FetchResult) (finalRunning : Bool) :
    Nat → Nat → Except TtError Unit × List Nat
  | _, 0 =>
    (Except.error (if finalRunning then TtError.agentUnavailable name
                   else TtError.containerStopped name), [])
  | tryCount, fuel + 1 =>
    match attemptStep (attempts tryCount) with
    | AttemptStep.returned => (Except.ok (), [])
    | AttemptStep.raised c => (Except.error (TtError.httpError c), [])
    | AttemptStep.retry =>
      let r := ttLoop name attempts finalRunning (tryCount + 1) fuel
      (r.1, 1 :: r.2)

/-- `Stand._test_tool_action`: up to 15 fetch attempts starting at
`try_count = 0`. -/
def Stand.test_tool_action (name : String) (attempts : Nat → FetchResult)
    (finalRunning : Bool) : Except TtError Unit × List Nat :=
  ttLoop name attempts finalRunning 0 15

/-! ### Effect traces for `start` / `stop` / `stop_by_timeout`
(`stand.py` lines 132-161) -/

/-- Externally visible side effects of the stand lifecycle methods:
cancelling/arming the auto-stop task, lock acquire/release, timer sleeps,
the Docker start call, the `refresh` call, and agent HTTP actions with their
request timeout in seconds. -/
inductive Eff : Type
  | cancelStopTask
  | acquireLock
  | releaseLock
  | armStopTask
  | sleep (seconds : Nat)
  | dockerStart
  | refreshCall
  | agentAction (action : String) (timeout : Nat)
deriving DecidableEq, Repr

/-- Effect trace of `Stand.stop_by_timeout` when it fires uncancelled:
`await asyncio.sleep(30)` — a hardcoded 30 seconds — then acquire the
stand's lock and issue the agent's `stop_tomcat` action (60s timeout). -/
def Stand.stop_by_timeout_effects : List Eff :=
  [Eff.sleep 30, Eff.acquireLock, Eff.agentAction "stop_tomcat" 60,
   Eff.releaseLock]

/-- Effect trace of `Stand.start`: cancel the pending auto-stop task if one
is set (before taking the lock), acquire the lock, arm a new auto-stop task
if `stop_timeout` is truthy, then Docker start, `refresh`, and the agent's
`start_tomcat` action (30s timeout). -/
def Stand.start_effects (s : StandState) : List Eff :=
  (if s.stop_task then [Eff.cancelStopTask] else []) ++
  [Eff.acquireLock] ++
  (if s.stop_timeout ≠ 0 then [Eff.armStopTask] else []) ++
  [Eff.dockerStart, Eff.refreshCall, Eff.agentAction "start_tomcat" 30,
   Eff.releaseLock]

/-- The `stop_task` field after `Stand.start` returns: set (to the freshly
created `stop_by_timeout` task) whenever `stop_timeout` is truthy. -/
def Stand.start_post (s : StandState) : StandState :=
  if s.stop_timeout ≠ 0 then { s with stop_task := true } else s

/-- Effect trace of `Stand.stop`: acquire the lock, cancel the pending
auto-stop task if one is set, then issue the agent's `stop_tomcat` action
(60s timeout). -/
def Stand.stop_effects (s : StandState) : List Eff :=
  [Eff.acquireLock] ++
  (if s.stop_task then [Eff.cancelStopTask] else []) ++
  [Eff.agentAction "stop_tomcat" 60, Eff.releaseLock]

/-! ### Task-level sequencing (`Stand.backup`, `Stand.update`,
`Stand.backup_and_update`, `stand.py` lines 95-115) -/

/-- One awaited step of a maintenance task, at the granularity the source
composes them: the composite `start()` and `stop()` methods, `refresh()`,
and an agent action with its request timeout. -/
inductive Act : Type
  | start
  | refresh
  | action (name : String) (timeout : Nat)
  | stop
deriving DecidableEq, Repr

/-- Sequential `await` of a list of steps: each step's outcome is given by
`env`; the first exception propagates immediately and the remaining steps are
not executed.  Returns the overall outcome and the list of steps actually
executed, in order. -/
def runSeq (env : Act → Except TtError Unit) :
    List Act → Except TtError Unit × List Act
  | [] => (Except.ok (), [])
  | a :: rest =>
    match env a with
    | Except.error e => (Except.error e, [a])
    | Except.ok _ =>
      let r := runSeq env rest
      (r.1, a :: r.2)

/-- The steps of `Stand.backup`, in source order: `start()`, `refresh()`,
wait for the embedded server (`check_uni`, 1000s), the backup action
(`backup`, 10800s), `stop()`. -/
def Stand.backup_steps : List Act :=
  [Act.start, Act.refresh, Act.action "check_uni" 1000,
   Act.action "backup" 10800, Act.stop]

/-- `Stand.backup` as a sequential run of its steps. -/
def Stand.backup_run (env : Act → Except TtError Unit) :
    Except TtError Unit × List Act :=
  runSeq env Stand.backup_steps

/-- The steps of `Stand.update`, in source order. -/
def Stand.update_steps : List Act :=
  [Act.start, Act.action "build_and_update" 1800,
   Act.action "check_uni" 1000, Act.stop]

/-- `Stand.update` as a sequential run of its steps. -/
def Stand.update_run (env : Act → Except TtError Unit) :
    Except TtError Unit × List Act :=
  runSeq env Stand.update_steps

/-- `Stand.backup_and_update`: `await self.backup()` then
`await self.update()`; an exception in `backup` propagates and `update` is
not executed. -/
def Stand.backup_and_update_run (env : Act → Except TtError Unit) :
    Except TtError Unit × List Act :=
  match Stand.backup_run env with
  | (Except.error e, tr) => (Except.error e, tr)
  | (Except.ok _, tr) =>
    let r := Stand.update_run env
    (r.1, tr ++ r.2)

/-! ### Log tail argument (`Stand.log`, `stand.py` lines 117-130) -/

/-- Decimal digit value of an ASCII character, `Option.none` otherwise. -/
def pyDigit : Char → Option Nat
  | c => if '0' ≤ c ∧ c ≤ '9' then Option.some (c.toNat - '0'.toNat) else Option.none

/-- Continuation of `pyDigits`: consume further digits, allowing a single
underscore between two digits (Python 3 `int()` literal grammar). -/
def pyDigitsAux : List Char → Nat → Option Nat
  | [], acc => Option.some acc
  | '_' :: c :: rest, acc =>
    match pyDigit c with
    | Option.some d => pyDigitsAux rest (acc * 10 + d)
    | Option.none => Option.none
  | ['_'], _ => Option.none
  | c :: rest, acc =>
    match pyDigit c with
    | Option.some d => pyDigitsAux rest (acc * 10 + d)
    | Option.none => Option.none

/-- A nonempty ASCII digit sequence with optional single underscores between
digits, as accepted by Python's `int()`. -/
def pyDigits : List Char → Option Nat
  | [] => Option.none
  | c :: rest =>
    match pyDigit c with
    | Option.some d => pyDigitsAux rest d
    | Option.none => Option.none

/-- Python `str.strip()` whitespace (the ASCII part). -/
def pySpace (c : Char) : Bool :=
  c = ' ' ∨ c = '\t' ∨ c = '\n' ∨ c = '\r' ∨ c = '\x0b' ∨ c = '\x0c'

/-- Strip `pySpace` characters from both ends. -/
def pyStrip (cs : List Char) : List Char :=
  ((cs.dropWhile pySpace).reverse.dropWhile pySpace).reverse

/-- Python `int(s)` on an ASCII string: optional surrounding whitespace, an
optional sign, then a digit sequence; `Option.none` models the `ValueError`
raised on anything else.  (Python additionally accepts some non-ASCII digit
forms, which never occur in this service's inputs.) -/
def pyParseInt (s : String) : Option Int :=
  match pyStrip s.toList with
  | '+' :: rest => (pyDigits rest).map Int.ofNat
  | '-' :: rest => (pyDigits rest).map (fun n => -(Int.ofNat n))
  | cs => (pyDigits cs).map Int.ofNat

/-- The `tail` value ultimately passed to `docker.logs`. -/
inductive TailArg : Type
  | all
  | lines (n : Int)
deriving DecidableEq, Repr

/-- The argument normalisation in `Stand.log`: the literal string `'all'`
passes through; otherwise `int(tail)` is attempted and a `ValueError`
silently falls back to `150`. -/
def Stand.log_tail_arg (tail : String) : TailArg :=
  if tail = "all" then TailArg.all
  else
    match pyParseInt tail with
    | Option.some n => TailArg.lines n
    | Option.none => TailArg.lines 150

/-- `Stand.log`: fetch the container log with the normalised tail argument;
`logs` is the Docker `logs` collaborator.  Total: no tail value makes the
operation fail. -/
def Stand.log_run (logs : TailArg → String) (tail : String) : String :=
  logs (Stand.log_tail_arg tail)

/-! ### Destination-queue worker (`Engine._queue_worker`, `engine.py`
lines 32-48) -/

/-- The outcome of running one dequeued task under its owning stand's lock:
success, a Tornado `HTTPError` with the given status code, or any other
exception. -/
inductive TaskResult : Type
  | ok
  | httpError (code : Nat)
  | otherError (msg : String)
deriving DecidableEq, Repr

/-- What the worker logs for one task: nothing, the reduced-severity pair of
`log.error` lines used for expected infrastructure conditions, or the full
`log.exception` traceback. -/
inductive WorkerLog : Type
  | noLog
  | expectedCondition
  | fullDetail
deriving DecidableEq, Repr

/-- The observable handling of one task by the worker. -/
structure TaskEffect : Type where
  logged : WorkerLog
  taskDone : Bool
deriving DecidableEq, Repr

/-- One iteration of the worker's `while True` body: exceptions are caught,
classified by `isinstance(e, HTTPError) and e.code == 400`, and
`queue.task_done()` runs in the `finally` block on every path. -/
def queue_worker_task : TaskResult → TaskEffect
  | TaskResult.ok => { logged := WorkerLog.noLog, taskDone := true }
  | TaskResult.httpError c =>
    if c = 400 then { logged := WorkerLog.expectedCondition, taskDone := true }
    else { logged := WorkerLog.fullDetail, taskDone := true }
  | TaskResult.otherError _ => { logged := WorkerLog.fullDetail, taskDone := true }

/-- The worker run over a finite stream of dequeued task outcomes: the
`while True` loop handles every task in order and never exits on a task
failure. -/
def queue_worker_run : List TaskResult → List TaskEffect
  | [] => []
  | r :: rest => queue_worker_task r :: queue_worker_run rest

/-! ### Engine registry, reconciliation and admission
(`engine.py` lines 16-164) -/

/-- Python `dict` lookup on an insertion-ordered association list. -/
def alookup {α β : Type} [DecidableEq α] : List (α × β) → α → Option β
  | [], _ => Option.none
  | (k, v) :: rest, key => if key = k then Option.some v else alookup rest key

/-- The engine's state (`Engine.__init__`): configuration, the stand registry
`self._stands` (name → stand, insertion-ordered), and the destination-queue
mapping `self.queues` (db address → queue).  Queue object identity is
modelled by a numeric id; `nextQueueId` supplies a fresh id for each
`Queue(maxsize=100)` constructed. -/
structure EngineState : Type where
  domain_name : String
  stop_timeout : Nat
  max_active_stands : Nat
  stands : List (String × StandState)
  queues : List (PyVal × Nat)
  nextQueueId : Nat
deriving DecidableEq, Repr

/-- The per-name body of the discovery loop in `Engine.stands` for a name not
yet in the registry: construct the `Stand`, probe it under its lock
(`refresh()`, and if not running `start()` then `stop()` — summarised by the
`probe` state transformer supplied by the environment), then bind it to the
queue for its reported `db_addr`, creating the queue on `KeyError`. -/
def Engine.add_stand (probe : StandState → StandState) (st : EngineState)
    (name : String) : EngineState :=
  if (alookup st.stands name).isSome then st
  else
    let s1 := probe (Stand.init name st.domain_name st.stop_timeout)
    match alookup st.queues s1.db_addr with
    | Option.some q =>
      { st with stands := st.stands ++ [(name, { s1 with queue := Option.some q })] }
    | Option.none =>
      let q := st.nextQueueId
      { st with stands := st.stands ++ [(name, { s1 with queue := Option.some q })]
                queues := st.queues ++ [(s1.db_addr, q)]
                nextQueueId := q + 1 }

/-- `Engine.stands` (reconciliation): `ps` is the outcome of the guarded
`docker.containers` call — `Except.error ()` models the `gen.TimeoutError`
of the 5-second guard, on which the previous `self._stands` is returned
unchanged; `Except.ok raw` carries the listed containers' first names, whose
leading slash the source strips with `[1:]`.  Registry entries absent from
the runtime list are deleted (queues untouched); new names run
`Engine.add_stand`. -/
def Engine.stands (probe : StandState → StandState) (st : EngineState)
    (ps : Except Unit (List String)) : EngineState :=
  match ps with
  | Except.error _ => st
  | Except.ok raw =>
    let name_list := raw.map (fun r => r.drop 1)
    let st1 : EngineState :=
      { st with stands := st.stands.filter (fun p => decide (p.1 ∈ name_list)) }
    name_list.foldl (Engine.add_stand probe) st1

/-- Errors raised by the engine's synchronous commands:
`RuntimeError('No resources')` and `RuntimeError('Stand is not exists')`. -/
inductive EngineError : Type
  | noResources
  | standNotFound
deriving DecidableEq, Repr

/-- `Engine._free_resources`: after `refresh_all`, count the stands with a
truthy `running` and `tomcat_returncode is None`; raise `No resources` when
the count reaches `max_active_stands`.  The (already refreshed) registry is
passed in as `ss`. -/
def Engine.free_resources (ss : List (String × StandState)) (max_active : Nat) :
    Except EngineError Unit :=
  let c := (ss.filter (fun p =>
    pyTruthy p.2.running && decide (p.2.tomcat_returncode = PyVal.none))).length
  if max_active ≤ c then Except.error EngineError.noResources else Except.ok ()

/-- `Engine.start(name)` over the post-reconciliation registry: the source
invokes `self._free_resources()` WITHOUT `yield`, so the coroutine's result —
including a `No resources` exception — lands on a discarded future and never
gates the command; then `_stand_with_validate` resolves the name (raising
`Stand is not exists` on `KeyError`) and `s.start()` runs under the stand's
lock.  Returns the command outcome and the effect trace of the
`Stand.start` call actually issued. -/
def Engine.start (st : EngineState) (name : String) :
    Except EngineError String × List Eff :=
  let _discarded := Engine.free_resources st.stands st.max_active_stands
  match alookup st.stands name with
  | Option.none => (Except.error EngineError.standNotFound, [])
  | Option.some s => (Except.ok "Done", Stand.start_effects s)

/-! ### Concrete fixtures used by closed theorems and witnesses -/

/-- A sample `engine_status` response. -/
def sampleStatus : EngineStatus :=
  { db_addr := PyVal.str "jdbc://db1"
    tomcat_returncode := PyVal.none
    last_task := PyVal.none
    last_error := PyVal.none
    active_task := PyVal.none
    uni_version := PyVal.str "2.1" }

/-- A stand that has been refreshed while running: a known database address,
container running, embedded server not exited. -/
def sampleRunningStand : StandState :=
  { Stand.init "s1" "172.17.0.1" 480 with
      db_addr := PyVal.str "jdbc://db1"
      running := Option.some true }

/-- A stand with the shipped default `stop_timeout` of 480 (minutes, per the
configuration contract) and a pending auto-stop task. -/
def sampleArmedStand : StandState :=
  { Stand.init "s2" "172.17.0.1" 480 with stop_task := true }

/-- An engine at capacity: `max_active_stands = 1` and one stand running with
no server exit code. -/
def sampleFullEngine : EngineState :=
  { domain_name := "172.17.0.1"
    stop_timeout := 480
    max_active_stands := 1
    stands := [("s1", sampleRunningStand)]
    queues := [(PyVal.str "jdbc://db1", 0)]
    nextQueueId := 1 }

/-! ### Helper lemmas -/

theorem queue_worker_task_done (r : TaskResult) :
    (queue_worker_task r).taskDone = true := by
  cases r with
  | ok => rfl
  | httpError c =>
    by_cases h : c = 400 <;> simp [queue_worker_task, h]
  | otherError m => rfl

theorem queue_worker_run_length (tasks : List TaskResult) :
    (queue_worker_run tasks).length = tasks.length := by
  induction tasks with
  | nil => rfl
  | cons r rest ih => simp [queue_worker_run, ih]

theorem runSeq_all_ok (env : Act → Except TtError Unit) :
    ∀ l : List Act, (∀ a ∈ l, env a = Except.ok ()) →
      runSeq env l = (Except.ok (), l) := by
  intro l
  induction l with
  | nil => intro _; rfl
  | cons a rest ih =>
    intro h
    have ha : env a = Except.ok () := h a (List.mem_cons_self a rest)
    have hr := ih (fun b hb => h b (List.mem_cons_of_mem a hb))
    simp [runSeq, ha, hr]

theorem runSeq_ok_trace (env : Act → Except TtError Unit) :
    ∀ l : List Act, (runSeq env l).1 = Except.ok () →
      runSeq env l = (Except.ok (), l) := by
  intro l
  induction l with
  | nil => intro _; rfl
  | cons a rest ih =>
    intro h
    cases ha : env a with
    | error e => rw [runSeq, ha] at h ⊢; exact absurd h (by simp)
    | ok u =>
      rw [runSeq, ha] at h ⊢
      simp only at h
      have hr := ih h
      simp [hr]

theorem runSeq_stops_at_error (env : Act → Except TtError Unit) :
    ∀ (l1 : List Act) (a : Act) (l2 : List Act) (e : TtError),
      (∀ b ∈ l1, env b = Except.ok ()) → env a = Except.error e →
      runSeq env (l1 ++ a :: l2) = (Except.error e, l1 ++ [a]) := by
  intro l1
  induction l1 with
  | nil => intro a l2 e _ ha; simp [runSeq, ha]
  | cons b rest ih =>
    intro a l2 e h ha
    have hb : env b = Except.ok () := h b (List.mem_cons_self b rest)
    have hr := ih a l2 e (fun c hc => h c (List.mem_cons_of_mem b hc)) ha
    simp [runSeq, hb, hr]

theorem ttLoop_all_retry (name : String) (attempts : Nat → FetchResult)
    (finalRunning : Bool) :
    ∀ (fuel tryCount : Nat),
      (∀ i, tryCount ≤ i → i < tryCount + fuel →
        attemptStep (attempts i) = AttemptStep.retry) →
      ttLoop name attempts finalRunning tryCount fuel =
        (Except.error (if finalRunning then TtError.agentUnavailable name
                       else TtError.containerStopped name),
         List.replicate fuel 1) := by
  intro fuel
  induction fuel with
  | zero => intro t _; simp [ttLoop]
  | succ n ih =>
    intro t h
    have hstep : attemptStep (attempts t) = AttemptStep.retry :=
      h t le_rfl (by omega)
    have hrec := ih (t + 1) (fun i h1 h2 => h i (by omega) (by omega))
    simp [ttLoop, hstep, hrec, List.replicate_succ]

theorem ttLoop_raised (name : String) (attempts : Nat → FetchResult)
    (finalRunning : Bool) :
    ∀ (fuel tryCount i : Nat) (c : Nat),
      tryCount ≤ i → i < tryCount + fuel →
      attemptStep (attempts i) = AttemptStep.raised c →
      (∀ j, tryCount ≤ j → j < i → attemptStep (attempts j) = AttemptStep.retry) →
      ttLoop name attempts finalRunning tryCount fuel =
        (Except.error (TtError.httpError c), List.replicate (i - tryCount) 1) := by
  intro fuel
  induction fuel with
  | zero => intro t i c h1 h2 _ _; omega
  | succ n ih =>
    intro t i c h1 h2 hi hj
    rcases Nat.eq_or_lt_of_le h1 with heq | hlt
    · subst heq
      simp [ttLoop, hi]
    · have hstep : attemptStep (attempts t) = AttemptStep.retry :=
        hj t le_rfl hlt
      have hrec := ih (t + 1) i c (by omega) (by omega) hi
        (fun j hj1 hj2 => hj j (by omega) hj2)
      have harith : i - t = (i - (t + 1)) + 1 := by omega
      simp [ttLoop, hstep, hrec, harith, List.replicate_succ]

theorem ttLoop_returned (name : String) (attempts : Nat → FetchResult)
    (finalRunning : Bool) :
    ∀ (fuel tryCount i : Nat),
      tryCount ≤ i → i < tryCount + fuel →
      attemptStep (attempts i) = AttemptStep.returned →
      (∀ j, tryCount ≤ j → j < i → attemptStep (attempts j) = AttemptStep.retry) →
      ttLoop name attempts finalRunning tryCount fuel =
        (Except.ok (), List.replicate (i - tryCount) 1) := by
  intro fuel
  induction fuel with
  | zero => intro t i h1 h2 _ _; omega
  | succ n ih =>
    intro t i h1 h2 hi hj
    rcases Nat.eq_or_lt_of_le h1 with heq | hlt
    · subst heq
      simp [ttLoop, hi]
    · have hstep : attemptStep (attempts t) = AttemptStep.retry :=
        hj t le_rfl hlt
      have hrec := ih (t + 1) i (by omega) (by omega) hi
        (fun j hj1 hj2 => hj j (by omega) hj2)
      have harith : i - t = (i - (t + 1)) + 1 := by omega
      simp [ttLoop, hstep, hrec, harith, List.replicate_succ]

theorem alookup_isSome_iff {α β : Type} [DecidableEq α]
    (l : List (α × β)) (k : α) :
    (alookup l k).isSome ↔ k ∈ l.map Prod.fst := by
  induction l with
  | nil => simp [alookup]
  | cons p rest ih =>
    obtain ⟨a, b⟩ := p
    by_cases h : k = a
    · subst h; simp [alookup]
    · simp [alookup, h, ih, Ne.symm h]

theorem alookup_append_some {α β : Type} [DecidableEq α]
    (l l2 : List (α × β)) (k : α) (v : β) (h : alookup l k = Option.some v) :
    alookup (l ++ l2) k = Option.some v := by
  induction l with
  | nil => simp [alookup] at h
  | cons p rest ih =>
    obtain ⟨a, b⟩ := p
    by_cases hk : k = a
    · subst hk
      simp [alookup] at h ⊢
      exact h
    · simp [alookup, hk] at h ⊢
      exact ih h

theorem add_stand_of_present (probe : StandState → StandState)
    (st : EngineState) (n : String) (h : (alookup st.stands n).isSome) :
    Engine.add_stand probe st n = st := by
  rw [Engine.add_stand, if_pos h]

theorem add_stand_keys (probe : StandState → StandState) (st : EngineState)
    (n m : String) :
    m ∈ (Engine.add_stand probe st n).stands.map Prod.fst ↔
      m ∈ st.stands.map Prod.fst ∨ m = n := by
  by_cases h : (alookup st.stands n).isSome
  · rw [add_stand_of_present probe st n h]
    have hn : n ∈ st.stands.map Prod.fst := (alookup_isSome_iff _ _).mp h
    constructor
    · exact Or.inl
    · rintro (hm | rfl)
      · exact hm
      · exact hn
  · rw [Engine.add_stand, if_neg h]
    cases hq : alookup st.queues
        (probe (Stand.init n st.domain_name st.stop_timeout)).db_addr with
    | none => simp [hq]
    | some q => simp [hq]

theorem add_stand_queues_mono (probe : StandState → StandState)
    (st : EngineState) (n : String) (a : PyVal) (q : Nat)
    (h : alookup st.queues a = Option.some q) :
    alookup (Engine.add_stand probe st n).queues a = Option.some q := by
  by_cases hp : (alookup st.stands n).isSome
  · rw [add_stand_of_present probe st n hp]; exact h
  · rw [Engine.add_stand, if_neg hp]
    cases hq : alookup st.queues
        (probe (Stand.init n st.domain_name st.stop_timeout)).db_addr with
    | none =>
      simp only [hq]
      exact alookup_append_some _ _ _ _ h
    | some q2 =>
      simp only [hq]
      exact h

theorem foldl_add_stand_keys (probe : StandState → StandState) :
    ∀ (names : List String) (st : EngineState) (m : String),
      m ∈ ((names.foldl (Engine.add_stand probe) st).stands.map Prod.fst) ↔
        m ∈ st.stands.map Prod.fst ∨ m ∈ names := by
  intro names
  induction names with
  | nil => intro st m; simp
  | cons n rest ih =>
    intro st m
    rw [List.foldl_cons, ih, add_stand_keys]
    simp [or_assoc]

theorem foldl_add_stand_id (probe : StandState → StandState) :
    ∀ (names : List String) (st : EngineState),
      (∀ n ∈ names, (alookup st.stands n).isSome) →
      names.foldl (Engine.add_stand probe) st = st := by
  intro names
  induction names with
  | nil => intro st _; rfl
  | cons n rest ih =>
    intro st h
    rw [List.foldl_cons,
      add_stand_of_present probe st n (h n (List.mem_cons_self n rest))]
    exact ih st (fun b hb => h b (List.mem_cons_of_mem n hb))

theorem foldl_add_stand_queues_mono (probe : StandState → StandState) :
    ∀ (names : List String) (st : EngineState) (a : PyVal) (q : Nat),
      alookup st.queues a = Option.some q →
      alookup ((names.foldl (Engine.add_stand probe) st)).queues a =
        Option.some q := by
  intro names
  induction names with
  | nil => intro st a q h; exact h
  | cons n rest ih =>
    intro st a q h
    rw [List.foldl_cons]
    exact ih _ a q (add_stand_queues_mono probe st n a q h)

/-- A sample probe outcome for a freshly discovered stand: `refresh` (plus
`start`/`stop` when not running) leaves it with a known database address. -/
def sampleProbe : StandState → StandState := fun s =>
  { s with running := Option.some true, db_addr := PyVal.str "jdbc://db2" }

/-! ### Claim theorems -/

/-- Claim C1 (code bug): the admission check does NOT gate `Engine.start`.
At an engine already at capacity (`max_active_stands = 1`, one stand with a
truthy `running` and `tomcat_returncode is None`), `_free_resources` would
raise `No resources`, yet `start('s1')` returns `Done` and issues the
container start, because the source invokes `self._free_resources()` without
`yield`, discarding the future that carries the exception. -/
theorem c1_capacity_check_discarded :
    Engine.free_resources sampleFullEngine.stands sampleFullEngine.max_active_stands
      = Except.error EngineError.noResources
    ∧ (Engine.start sampleFullEngine "s1").1 = Except.ok "Done"
    ∧ Eff.dockerStart ∈ (Engine.start sampleFullEngine "s1").2 := by
  refine ⟨rfl, rfl, ?_⟩
  decide

/-- Claim C2 (code bug): `start()` on a stand with the shipped default
`stop_timeout = 480` cancels the pending auto-stop and arms a new one, the
armed `stop_by_timeout` fires by sleeping a HARDCODED 30 seconds — not
`stop_timeout` minutes (480 min = 28800 s) — then acquiring the stand's lock
and issuing the agent's `stop_tomcat` action, and a subsequent `stop()`
cancels the pending auto-stop before issuing `stop_tomcat`. -/
theorem c2_auto_stop_delay_is_hardcoded_30s :
    Stand.start_effects sampleArmedStand =
      [Eff.cancelStopTask, Eff.acquireLock, Eff.armStopTask, Eff.dockerStart,
       Eff.refreshCall, Eff.agentAction "start_tomcat" 30, Eff.releaseLock]
    ∧ Stand.stop_by_timeout_effects =
      [Eff.sleep 30, Eff.acquireLock, Eff.agentAction "stop_tomcat" 60,
       Eff.releaseLock]
    ∧ Eff.sleep (480 * 60) ∉ Stand.stop_by_timeout_effects
    ∧ Stand.stop_effects (Stand.start_post sampleArmedStand) =
      [Eff.acquireLock, Eff.cancelStopTask, Eff.agentAction "stop_tomcat" 60,
       Eff.releaseLock] := by
  refine ⟨rfl, rfl, by decide, rfl⟩

/-- Claim C3: in `_test_tool_action`, a `ConnectionError`, an `HTTPError`
with the placeholder code 599 (and a falsy response) are retried silently;
an `HTTPError` with any other status propagates immediately; at most 15
attempts are made at a fixed 1-second interval; and when all 15 are
exhausted, one authoritative inspect decides between
`ContainerStoppedUnexpectedly` and `AgentUnavailable`. -/
theorem c3_agent_polling_protocol (name : String)
    (attempts : Nat → FetchResult) (finalRunning : Bool) :
    attemptStep FetchResult.connError = AttemptStep.retry
    ∧ attemptStep (FetchResult.httpError 599) = AttemptStep.retry
    ∧ (∀ c, ¬ c = 599 →
        attemptStep (FetchResult.httpError c) = AttemptStep.raised c)
    ∧ ((∀ i, i < 15 → attemptStep (attempts i) = AttemptStep.retry) →
        Stand.test_tool_action name attempts finalRunning =
          (Except.error (if finalRunning then TtError.agentUnavailable name
                         else TtError.containerStopped name),
           List.replicate 15 1))
    ∧ (∀ i c, i < 15 → attemptStep (attempts i) = AttemptStep.raised c →
        (∀ j, j < i → attemptStep (attempts j) = AttemptStep.retry) →
        Stand.test_tool_action name attempts finalRunning =
          (Except.error (TtError.httpError c), List.replicate i 1))
    ∧ (∀ i, i < 15 → attemptStep (attempts i) = AttemptStep.returned →
        (∀ j, j < i → attemptStep (attempts j) = AttemptStep.retry) →
        Stand.test_tool_action name attempts finalRunning =
          (Except.ok (), List.replicate i 1)) := by
  refine ⟨rfl, rfl, ?_, ?_, ?_, ?_⟩
  · intro c hc
    simp [attemptStep, hc]
  · intro h
    have hl := ttLoop_all_retry name attempts finalRunning 15 0
      (fun i _ h2 => h i (by omega))
    simpa [Stand.test_tool_action] using hl
  · intro i c hi hic hj
    have hl := ttLoop_raised name attempts finalRunning 15 0 i c
      (by omega) (by omega) hic (fun j _ h2 => hj j h2)
    simpa [Stand.test_tool_action] using hl
  · intro i hi hir hj
    have hl := ttLoop_returned name attempts finalRunning 15 0 i
      (by omega) (by omega) hir (fun j _ h2 => hj j h2)
    simpa [Stand.test_tool_action] using hl

/-- Witness for C3: exhausting all 15 attempts with the placeholder code 599
on a still-running container fails with `AgentUnavailable` after 15
one-second sleeps; an `HTTPError` 404 at the third attempt propagates
immediately after two retries. -/
theorem c3_agent_polling_protocol_witness :
    Stand.test_tool_action "s1" (fun _ => FetchResult.httpError 599) true =
      (Except.error (TtError.agentUnavailable "s1"), List.replicate 15 1)
    ∧ Stand.test_tool_action "s1"
        (fun i => if i = 2 then FetchResult.httpError 404
                  else FetchResult.connError) true =
      (Except.error (TtError.httpError 404), List.replicate 2 1) := by
  constructor
  · exact (c3_agent_polling_protocol "s1" (fun _ => FetchResult.httpError 599)
      true).2.2.2.1 (fun i _ => by decide)
  · exact (c3_agent_polling_protocol "s1"
      (fun i => if i = 2 then FetchResult.httpError 404
                else FetchResult.connError) true).2.2.2.2.1 2 404
      (by decide) (by decide) (by decide)

/-- Claim C5: `backup()` executes exactly `start()`, `refresh()`,
`check_uni` (1000s), `backup` (10800s), `stop()` in that order when every
step succeeds; when the wait-for-ready `check_uni` step fails, the run stops
right there; and the destructive `backup` action appears in the executed
trace only if `check_uni` succeeded. -/
theorem c5_backup_sequence (env : Act → Except TtError Unit) :
    ((∀ a ∈ Stand.backup_steps, env a = Except.ok ()) →
      Stand.backup_run env = (Except.ok (), Stand.backup_steps))
    ∧ (∀ e, env Act.start = Except.ok () → env Act.refresh = Except.ok () →
        env (Act.action "check_uni" 1000) = Except.error e →
        Stand.backup_run env =
          (Except.error e, [Act.start, Act.refresh, Act.action "check_uni" 1000]))
    ∧ (Act.action "backup" 10800 ∈ (Stand.backup_run env).2 →
        env (Act.action "check_uni" 1000) = Except.ok ()) := by
  refine ⟨fun h => runSeq_all_ok env _ h, ?_, ?_⟩
  · intro e h1 h2 h3
    have hs := runSeq_stops_at_error env [Act.start, Act.refresh]
      (Act.action "check_uni" 1000) [Act.action "backup" 10800, Act.stop] e
      (by
        intro b hb
        rcases List.mem_cons.mp hb with rfl | hb
        · exact h1
        rcases List.mem_cons.mp hb with rfl | hb
        · exact h2
        exact absurd hb (List.not_mem_nil b)) h3
    simpa [Stand.backup_run, Stand.backup_steps] using hs
  · intro hmem
    cases hcu : env (Act.action "check_uni" 1000) with
    | ok u => cases u; rfl
    | error e =>
      exfalso
      cases hs : env Act.start with
      | error e1 =>
        simp [Stand.backup_run, Stand.backup_steps, runSeq, hs] at hmem
      | ok u1 =>
        cases hr : env Act.refresh with
        | error e2 =>
          simp [Stand.backup_run, Stand.backup_steps, runSeq, hs, hr] at hmem
        | ok u2 =>
          simp [Stand.backup_run, Stand.backup_steps, runSeq, hs, hr, hcu] at hmem

/-- Witness for C5: with every step succeeding the exact sequence runs; with
`check_uni` failing, the run stops at `check_uni` and the `backup` action is
never executed. -/
theorem c5_backup_sequence_witness :
    Stand.backup_run (fun _ => Except.ok ()) = (Except.ok (), Stand.backup_steps)
    ∧ Stand.backup_run
        (fun a => if a = Act.action "check_uni" 1000
                  then Except.error (TtError.agentUnavailable "s1")
                  else Except.ok ()) =
      (Except.error (TtError.agentUnavailable "s1"),
       [Act.start, Act.refresh, Act.action "check_uni" 1000]) := by
  constructor
  · exact (c5_backup_sequence (fun _ => Except.ok ())).1 (fun a _ => rfl)
  · exact (c5_backup_sequence _).2.1 (TtError.agentUnavailable "s1")
      rfl rfl rfl

/-- Claim C4 counterexample: refreshing a stand whose container inspect
reports not running resets the five agent-reported fields to the `'-'`
sentinel but leaves `db_addr` at its previous value `jdbc://db1` — it is not
reset to any unknown sentinel, contrary to the claim. -/
theorem c4_db_addr_survives_refresh :
    StandState.refresh sampleRunningStand
        { running := false, ports := Option.none } (Except.ok sampleStatus) =
      Except.ok { sampleRunningStand with
        running := Option.some false
        tomcat_returncode := PyVal.str "-"
        last_task := PyVal.str "-"
        last_error := PyVal.str "-"
        active_task := PyVal.str "-"
        uni_version := PyVal.str "-" }
    ∧ Except.map StandState.db_addr
        (StandState.refresh sampleRunningStand
          { running := false, ports := Option.none } (Except.ok sampleStatus)) =
      Except.ok (PyVal.str "jdbc://db1")
    ∧ PyVal.str "jdbc://db1" ≠ PyVal.str "-"
    ∧ PyVal.str "jdbc://db1" ≠ PyVal.none := by
  refine ⟨rfl, rfl, by decide, by decide⟩

/-- Claim C4 as amended: `refresh()` on a stand whose container inspect
reports not running resets `tomcat_returncode`, `last_task`, `last_error`,
`active_task` and `uni_version` to the `'-'` sentinel and records
`running = False`, while `db_addr` (and the port fields) keep their previous
values. -/
theorem c4_amended_refresh_resets_all_but_db_addr (s : StandState)
    (ins : InspectResult) (statusResult : Except TtError EngineStatus)
    (h : ins.running = false) :
    StandState.refresh s ins statusResult =
      Except.ok { s with
        running := Option.some false
        tomcat_returncode := PyVal.str "-"
        last_task := PyVal.str "-"
        last_error := PyVal.str "-"
        active_task := PyVal.str "-"
        uni_version := PyVal.str "-" }
    ∧ Except.map StandState.db_addr (StandState.refresh s ins statusResult) =
      Except.ok s.db_addr := by
  have h1 : StandState.refresh s ins statusResult =
      Except.ok { s with
        running := Option.some false
        tomcat_returncode := PyVal.str "-"
        last_task := PyVal.str "-"
        last_error := PyVal.str "-"
        active_task := PyVal.str "-"
        uni_version := PyVal.str "-" } := by
    simp [StandState.refresh, h]
  exact ⟨h1, by rw [h1]; rfl⟩

/-- Witness for the amended C4 at a concrete freshly initialised stand. -/
theorem c4_amended_witness :
    StandState.refresh (Stand.init "w" "172.17.0.1" 0)
        { running := false, ports := Option.none } (Except.ok sampleStatus) =
      Except.ok { Stand.init "w" "172.17.0.1" 0 with
        running := Option.some false
        tomcat_returncode := PyVal.str "-"
        last_task := PyVal.str "-"
        last_error := PyVal.str "-"
        active_task := PyVal.str "-"
        uni_version := PyVal.str "-" }
    ∧ Except.map StandState.db_addr
        (StandState.refresh (Stand.init "w" "172.17.0.1" 0)
          { running := false, ports := Option.none } (Except.ok sampleStatus)) =
      Except.ok (Stand.init "w" "172.17.0.1" 0).db_addr :=
  c4_amended_refresh_resets_all_but_db_addr _ _ _ rfl

/-- Claim C6: when the guarded container-runtime list call times out,
reconciliation returns the previous registry state completely unchanged (the
error is absorbed, not propagated: the function's return type carries no
error case). -/
theorem c6_list_timeout_returns_previous_snapshot
    (probe : StandState → StandState) (st : EngineState) :
    Engine.stands probe st (Except.error ()) = st := rfl

/-- Claim C7: after a successful reconcile the registry's key set equals
exactly the set of listed container names (with the leading slash stripped);
every previously known destination queue survives untouched; and reconciling
a second time with the unchanged runtime list is a no-op on the whole engine
state. -/
theorem c7_reconcile_registry (probe : StandState → StandState)
    (st : EngineState) (raw : List String) :
    (∀ n, n ∈ (Engine.stands probe st (Except.ok raw)).stands.map Prod.fst ↔
        n ∈ raw.map (fun r => r.drop 1))
    ∧ (∀ a q, alookup st.queues a = Option.some q →
        alookup (Engine.stands probe st (Except.ok raw)).queues a =
          Option.some q)
    ∧ Engine.stands probe (Engine.stands probe st (Except.ok raw))
        (Except.ok raw) =
      Engine.stands probe st (Except.ok raw) := by
  have hkeys : ∀ n,
      n ∈ (Engine.stands probe st (Except.ok raw)).stands.map Prod.fst ↔
        n ∈ raw.map (fun r => r.drop 1) := by
    intro n
    simp only [Engine.stands]
    rw [foldl_add_stand_keys]
    constructor
    · rintro (hm | hm)
      · rcases List.mem_map.mp hm with ⟨p, hp, rfl⟩
        rcases List.mem_filter.mp hp with ⟨_, hpred⟩
        exact of_decide_eq_true hpred
      · exact hm
    · exact Or.inr
  refine ⟨hkeys, ?_, ?_⟩
  · intro a q h
    simp only [Engine.stands]
    exact foldl_add_stand_queues_mono probe _ _ a q h
  · rcases hR : Engine.stands probe st (Except.ok raw) with
      ⟨dn, sto, mx, stands, queues, nq⟩
    rw [← hR]
    conv =>
      lhs
      rw [Engine.stands]
    have hfilter :
        (Engine.stands probe st (Except.ok raw)).stands.filter
          (fun p => decide (p.1 ∈ raw.map (fun r => r.drop 1))) =
        (Engine.stands probe st (Except.ok raw)).stands := by
      apply List.filter_eq_self.mpr
      intro p hp
      apply decide_eq_true
      exact (hkeys p.1).mp (List.mem_map_of_mem Prod.fst hp)
    rw [hfilter]
    have heta : ({ Engine.stands probe st (Except.ok raw) with
        stands := (Engine.stands probe st (Except.ok raw)).stands } :
        EngineState) = Engine.stands probe st (Except.ok raw) := rfl
    rw [heta]
    apply foldl_add_stand_id
    intro n hn
    rw [alookup_isSome_iff]
    exact (hkeys n).mpr hn

/-- Witness for C7: reconciling the at-capacity sample engine against a
runtime listing only `/s9` removes `s1`, adds `s9`, and leaves the known
destination queue intact. -/
theorem c7_reconcile_registry_witness :
    ("s9" ∈ (Engine.stands sampleProbe sampleFullEngine
        (Except.ok ["/s9"])).stands.map Prod.fst)
    ∧ ¬ ("s1" ∈ (Engine.stands sampleProbe sampleFullEngine
        (Except.ok ["/s9"])).stands.map Prod.fst)
    ∧ alookup (Engine.stands sampleProbe sampleFullEngine
        (Except.ok ["/s9"])).queues (PyVal.str "jdbc://db1") =
      Option.some 0 := by
  refine ⟨?_, ?_, ?_⟩
  · exact ((c7_reconcile_registry sampleProbe sampleFullEngine ["/s9"]).1
      "s9").mpr (by decide)
  · intro hmem
    have h1 := ((c7_reconcile_registry sampleProbe sampleFullEngine
      ["/s9"]).1 "s1").mp hmem
    revert h1
    decide
  · exact (c7_reconcile_registry sampleProbe sampleFullEngine ["/s9"]).2.1
      (PyVal.str "jdbc://db1") 0 rfl

/-- Claim C8: `backup_and_update()` propagates a `backup()` failure without
starting `update()` (the execution trace ends where backup's did), and on a
successful backup runs the full backup step list followed by `update()`'s
trace, in that order. -/
theorem c8_backup_then_update (env : Act → Except TtError Unit) :
    (∀ e, (Stand.backup_run env).1 = Except.error e →
      Stand.backup_and_update_run env = Stand.backup_run env)
    ∧ ((Stand.backup_run env).1 = Except.ok () →
      Stand.backup_and_update_run env =
        ((Stand.update_run env).1,
         Stand.backup_steps ++ (Stand.update_run env).2)) := by
  constructor
  · intro e h
    rcases hbr : Stand.backup_run env with ⟨r, tr⟩
    cases r with
    | error e2 => simp [Stand.backup_and_update_run, hbr]
    | ok u =>
      rw [hbr] at h
      exact absurd h (by simp)
  · intro h
    have hfull : Stand.backup_run env = (Except.ok (), Stand.backup_steps) :=
      runSeq_ok_trace env Stand.backup_steps h
    simp [Stand.backup_and_update_run, hfull]

/-- Witness for C8: a failure in the backup action stops the combined task
before any update step; an all-success environment runs backup's steps then
update's steps. -/
theorem c8_backup_then_update_witness :
    Stand.backup_and_update_run
        (fun a => if a = Act.action "backup" 10800
                  then Except.error (TtError.httpError 400)
                  else Except.ok ()) =
      Stand.backup_run
        (fun a => if a = Act.action "backup" 10800
                  then Except.error (TtError.httpError 400)
                  else Except.ok ())
    ∧ Stand.backup_and_update_run (fun _ => Except.ok ()) =
      ((Stand.update_run (fun _ => Except.ok ())).1,
       Stand.backup_steps ++ (Stand.update_run (fun _ => Except.ok ())).2) := by
  constructor
  · exact (c8_backup_then_update _).1 (TtError.httpError 400) rfl
  · exact (c8_backup_then_update _).2 rfl

/-- Claim C9: the destination-queue worker marks every task done, handles
every task of the stream (it never exits on a failure: the run over
`r :: rest` always continues into `rest`), logs an `HTTPError` 400 at
reduced severity as an expected condition, and logs any other failure with
full detail. -/
theorem c9_worker_error_handling (tasks : List TaskResult) :
    (∀ t ∈ queue_worker_run tasks, t.taskDone = true)
    ∧ (queue_worker_run tasks).length = tasks.length
    ∧ (∀ r rest, queue_worker_run (r :: rest) =
        queue_worker_task r :: queue_worker_run rest)
    ∧ (queue_worker_task (TaskResult.httpError 400)).logged =
        WorkerLog.expectedCondition
    ∧ (∀ c, ¬ c = 400 →
        (queue_worker_task (TaskResult.httpError c)).logged =
          WorkerLog.fullDetail)
    ∧ (∀ m, (queue_worker_task (TaskResult.otherError m)).logged =
        WorkerLog.fullDetail) := by
  refine ⟨?_, queue_worker_run_length tasks, fun r rest => rfl, rfl, ?_,
    fun m => rfl⟩
  · intro t ht
    induction tasks with
    | nil => exact absurd ht (List.not_mem_nil t)
    | cons r rest ih =>
      rcases List.mem_cons.mp ht with rfl | hmem
      · exact queue_worker_task_done r
      · exact ih hmem
  · intro c hc
    simp [queue_worker_task, hc]

/-- Witness for C9: a worker fed a failing task stream handles both tasks,
and a non-400 `HTTPError` is logged with full detail. -/
theorem c9_worker_error_handling_witness :
    (queue_worker_run [TaskResult.httpError 400, TaskResult.otherError "boom"]).length = 2
    ∧ (queue_worker_task (TaskResult.httpError 500)).logged =
        WorkerLog.fullDetail := by
  constructor
  · exact (c9_worker_error_handling
      [TaskResult.httpError 400, TaskResult.otherError "boom"]).2.1
  · exact (c9_worker_error_handling []).2.2.2.2.1 500 (by decide)

/-- Claim C10: a `tail` argument that is neither the string `'all'` nor
parseable as an integer does not make `Stand.log` fail: the default of 150
lines is substituted silently and the container log for that tail count is
returned. -/
theorem c10_log_tail_fallback (tail : String) (logs : TailArg → String)
    (hall : ¬ tail = "all") (hparse : pyParseInt tail = Option.none) :
    Stand.log_tail_arg tail = TailArg.lines 150
    ∧ Stand.log_run logs tail = logs (TailArg.lines 150) := by
  constructor
  · simp [Stand.log_tail_arg, hall, hparse]
  · simp [Stand.log_run, Stand.log_tail_arg, hall, hparse]

/-- Witness for C10 at the concrete unparseable tail string `'latest'`. -/
theorem c10_log_tail_fallback_witness :
    Stand.log_tail_arg "latest" = TailArg.lines 150
    ∧ Stand.log_run (fun t => if t = TailArg.lines 150 then "LOG" else "X")
        "latest" =
      (fun t => if t = TailArg.lines 150 then "LOG" else "X")
        (TailArg.lines 150) :=
  c10_log_tail_fallback "latest"
    (fun t => if t = TailArg.lines 150 then "LOG" else "X")
    (by decide) (by decide)

end Unitest
